import Mathlib

/-!
Verification of the copilot-sdk repository's session-event data layer
(`copilot.generated.session_events`, exercised by
`src/python/test_session_events.py`) and of the control flow of the
cookbook example `src/cookbook/python/recipe/error_handling.py`.

The generated module itself is not part of the source tree here: only its
unit tests and callers are.  Its data model and parse function are
therefore modelled from the specification (spec.md §3, §4.1, §6, §7),
with the unit tests fixing concrete observable values.  The cookbook
example is embedded directly from its Python source.
-/

/-- A JSON-like wire value: the loosely-typed values carried by the wire
records that the attachment parser consumes (spec.md §4.1: "a mapping of
string keys to JSON-like values"). -/
inductive JValue where
  | str : String → JValue
  | num : Int → JValue
  | obj : List (String × JValue) → JValue
  | nul : JValue

/-- A wire record: a mapping of string keys to JSON-like values, embedded
as an association list (Python `dict` keys are unique; lookup takes the
first binding). -/
abbrev WireRecord := List (String × JValue)

/-- Look a key up in an association list of wire fields. -/
def lookupField : WireRecord → String → Option JValue
  | [], _ => none
  | (k, v) :: rest, key => if k = key then some v else lookupField rest key

/-- Read a required-or-optional string field: `some s` exactly when the
key is present and bound to a string (spec.md §6 types every scalar
attachment field as `string`). -/
def getStr (r : WireRecord) (key : String) : Option String :=
  match lookupField r key with
  | some (JValue.str s) => some s
  | _ => none

/-- Look a key up inside a nested wire value, when it is a mapping. -/
def getKey : JValue → String → Option JValue
  | JValue.obj fields, key => lookupField fields key
  | _, _ => none

/-- Read an integer field of a nested wire value (spec.md §6:
`line`/`character` are `int`). -/
def getIntKey (v : JValue) (key : String) : Option Int :=
  match getKey v key with
  | some (JValue.num n) => some n
  | _ => none

/-- Modelled from the spec: `AttachmentType`, the closed enumeration
{FILE, DIRECTORY, SELECTION} of spec.md §3, declared in the missing
generated module `copilot.generated.session_events`. -/
inductive AttachmentType where
  | FILE
  | DIRECTORY
  | SELECTION
deriving DecidableEq, Repr

/-- Modelled from the spec: `Position` {line, character} of spec.md §3,
declared in the missing generated module. -/
structure Position where
  line : Int
  character : Int
deriving DecidableEq, Repr

/-- Modelled from the spec: `Range` {start, end} of spec.md §3, declared
in the missing generated module.  `end` is a Lean keyword, so the field
is written with guillemets. -/
structure Range where
  start : Position
  «end» : Position
deriving DecidableEq, Repr

/-- Modelled from the spec: the `Attachment` tagged union of spec.md §3,
declared in the missing generated module.  The union is flattened into
one structure whose `type` discriminator governs which optional fields
are populated, matching the attribute accesses made by the unit tests
(`attachment.path`, `attachment.display_name`, `attachment.file_path`,
`attachment.selection`, `attachment.text`). -/
structure Attachment where
  type : AttachmentType
  path : Option String
  display_name : Option String
  file_path : Option String
  selection : Option Range
  text : Option String
deriving DecidableEq, Repr

/-- Modelled from the spec: the single ValidationError-class error kind
"malformed attachment record" of spec.md §4.1/§7, carrying only a
descriptive message. -/
inductive SdkError where
  | validationError : String → SdkError
deriving DecidableEq, Repr

/-- Modelled from the spec: parse a nested `start`/`end` sub-mapping into
a `Position` (spec.md §4.1: "`start`/`end` sub-mappings with
`line`/`character` integers"). -/
def Position.from_val (v : JValue) : Option Position :=
  match getIntKey v "line", getIntKey v "character" with
  | some l, some c => some { line := l, character := c }
  | _, _ => none

/-- Modelled from the spec: parse a nested `selection` mapping into a
`Range` (spec.md §4.1/§6). -/
def Range.from_val (v : JValue) : Option Range :=
  match getKey v "start", getKey v "end" with
  | some s, some e =>
    match Position.from_val s, Position.from_val e with
    | some ps, some pe => some { start := ps, «end» := pe }
    | _, _ => none
  | _, _ => none

/-- Modelled from the spec: `Attachment.from_dict`, the wire-record parse
function of the missing generated module (spec.md §4.1; the name
`from_dict` is the one the unit tests call).  Behaviour per the spec:
dispatch on `type`; for "file"/"directory" read required `path` and
`displayName`; for "selection" read required `filePath` and
`displayName` plus the optional `selection` range and optional `text`;
an unrecognized `type` or a missing required field yields the single
malformed-record ValidationError; absent (or unreadable) optional fields
map to null, never to an error (spec.md §4.1, §7). -/
def Attachment.from_dict (record : WireRecord) : Except SdkError Attachment :=
  match getStr record "type" with
  | none =>
    Except.error (SdkError.validationError "malformed attachment record: unrecognized type")
  | some t =>
    if t == "file" || t == "directory" then
      match getStr record "path", getStr record "displayName" with
      | some p, some d =>
        Except.ok
          { type := if t == "file" then AttachmentType.FILE else AttachmentType.DIRECTORY,
            path := some p, display_name := some d,
            file_path := none, selection := none, text := none }
      | _, _ =>
        Except.error (SdkError.validationError "malformed attachment record: missing required field")
    else if t == "selection" then
      match getStr record "filePath", getStr record "displayName" with
      | some fp, some d =>
        Except.ok
          { type := AttachmentType.SELECTION,
            path := none, display_name := some d, file_path := some fp,
            selection := (lookupField record "selection").bind Range.from_val,
            text := getStr record "text" }
      | _, _ =>
        Except.error (SdkError.validationError "malformed attachment record: missing required field")
    else
      Except.error (SdkError.validationError "malformed attachment record: unrecognized type")

/-- Modelled from the spec: `SessionEventType`, the closed enumeration of
event-kind string constants (spec.md §3, §6); its three test-visible
members and their string values are fixed by
`src/python/test_session_events.py` lines 19-29. -/
inductive SessionEventType where
  | SESSION_START
  | SESSION_SNAPSHOT_REWIND
  | SESSION_USAGE_INFO
deriving DecidableEq, Repr

/-- Modelled from the spec: the `.value` string of each event-kind
constant (spec.md §6: dot-separated lowercase identifiers). -/
def SessionEventType.value : SessionEventType → String
  | SessionEventType.SESSION_START => "session.start"
  | SessionEventType.SESSION_SNAPSHOT_REWIND => "session.snapshot_rewind"
  | SessionEventType.SESSION_USAGE_INFO => "session.usage_info"

/-- The attribute name under which the source test suite
(`src/python/test_session_events.py` line 43) invokes the component's
wire-record parse operation on the `Attachment` class. -/
def attachmentParseExportName : String := "from_dict"

/-- Spec-side predicate, following the words of spec.md §4.1/§7: the
`type` value of the record is not one of "file", "directory",
"selection". -/
def typeUnrecognized (r : WireRecord) : Bool :=
  match getStr r "type" with
  | some t => !(t == "file" || t == "directory" || t == "selection")
  | none => true

/-- Spec-side predicate, following the words of spec.md §4.1/§7: a
required field of the variant matched by the `type` discriminator is
missing (a required string field absent, or not bound to a string). -/
def requiredFieldMissing (r : WireRecord) : Bool :=
  match getStr r "type" with
  | some t =>
    if t == "file" || t == "directory" then
      (getStr r "path").isNone || (getStr r "displayName").isNone
    else if t == "selection" then
      (getStr r "filePath").isNone || (getStr r "displayName").isNone
    else false
  | none => false

/-!
Embedding of `src/cookbook/python/recipe/error_handling.py`.

The SDK calls awaited by `main` (`client.start`, `client.create_session`,
`session.send_and_wait`, `session.destroy`) belong to the external SDK;
each is modelled by an oracle outcome: it either returns normally or
raises an exception of one of the classes caught by `main`.  `main`
itself is embedded as a function from those outcomes to the sequence of
actions it performs, reflecting Python `try`/`except`/`finally`
semantics: a raising step ends the `try` body, the matching handler
runs, and the `finally` block runs afterwards on every path.
-/

/-- The exception classes caught by `main` in error_handling.py lines
37-44: `FileNotFoundError`, `ConnectionError`, `asyncio.TimeoutError`,
and the catch-all `Exception`. -/
inductive CaughtExc where
  | fileNotFound
  | connectionError
  | timeoutError
  | otherExc
deriving DecidableEq, Repr

/-- Outcome of one awaited SDK call: return normally, or raise one of
the caught exception classes. -/
inductive StepOutcome where
  | ok
  | raises : CaughtExc → StepOutcome
deriving DecidableEq, Repr

/-- One oracle per awaited SDK call in the `try` body of `main`. -/
structure SdkRun where
  startOutcome : StepOutcome
  createSessionOutcome : StepOutcome
  sendAndWaitOutcome : StepOutcome
  destroyOutcome : StepOutcome
deriving DecidableEq, Repr

/-- The observable actions `main` performs, in program order. -/
inductive MainAction where
  | startClient
  | createSession
  | sessionOn
  | sendAndWait
  | printResponse
  | destroySession
  | printError : CaughtExc → MainAction
  | stopClient
deriving DecidableEq, Repr

/-- Python truthiness of the `response` variable at the
`if response:` check (line 32): `None` and the empty string are falsy. -/
def pyTruthy : Option String → Bool
  | none => false
  | some s => !(s == "")

/-- The `event.data` object of an SDK event, as accessed by
`handle_message` (only `.content` is read). -/
structure EventData where
  content : String
deriving DecidableEq, Repr

/-- An SDK event as accessed by `handle_message`: a `type` string and a
`data` payload. -/
structure Event where
  type : String
  data : EventData
deriving DecidableEq, Repr

/-- The `handle_message` callback of error_handling.py lines 18-21, as a
transformer of the captured `response` variable: assign
`event.data.content` when `event.type == "assistant.message"`, otherwise
leave `response` as it was. -/
def handle_message (event : Event) (response : Option String) : Option String :=
  if event.type = "assistant.message" then some event.data.content else response

/-- The `try` body of `main` (error_handling.py lines 23-35): the actions
performed, and the exception (if any) that escapes the body.  `resp` is
the value of `response` observed at the `if response:` check, left
abstract because it is produced by the external SDK's event dispatch. -/
def tryBodyTrace (run : SdkRun) (resp : Option String) : List MainAction × Option CaughtExc :=
  match run.startOutcome with
  | StepOutcome.raises e => ([MainAction.startClient], some e)
  | StepOutcome.ok =>
    match run.createSessionOutcome with
    | StepOutcome.raises e => ([MainAction.startClient, MainAction.createSession], some e)
    | StepOutcome.ok =>
      match run.sendAndWaitOutcome with
      | StepOutcome.raises e =>
        ([MainAction.startClient, MainAction.createSession, MainAction.sessionOn, MainAction.sendAndWait],
          some e)
      | StepOutcome.ok =>
        let acts :=
          if pyTruthy resp then
            [MainAction.startClient, MainAction.createSession, MainAction.sessionOn, MainAction.sendAndWait,
              MainAction.printResponse]
          else
            [MainAction.startClient, MainAction.createSession, MainAction.sessionOn, MainAction.sendAndWait]
        match run.destroyOutcome with
        | StepOutcome.raises e => (acts ++ [MainAction.destroySession], some e)
        | StepOutcome.ok => (acts ++ [MainAction.destroySession], none)

/-- The whole of `main` (error_handling.py lines 14-47): run the `try`
body; if an exception escaped it, the matching `except` handler prints
an error message; the `finally` block then awaits `client.stop()` on
every path. -/
def mainTrace (run : SdkRun) (resp : Option String) : List MainAction :=
  let body := tryBodyTrace run resp
  (match body.2 with
   | some e => body.1 ++ [MainAction.printError e]
   | none => body.1) ++ [MainAction.stopClient]

/-- The FILE wire record used by
`TestAttachmentTypes.test_file_attachment_parsing`. -/
def fileRecordExample : WireRecord :=
  [("type", JValue.str "file"),
   ("path", JValue.str "/path/to/file.py"),
   ("displayName", JValue.str "file.py")]

/-- The DIRECTORY wire record used by
`TestAttachmentTypes.test_directory_attachment_parsing`. -/
def directoryRecordExample : WireRecord :=
  [("type", JValue.str "directory"),
   ("path", JValue.str "/path/to/dir"),
   ("displayName", JValue.str "dir")]

/-- The full SELECTION wire record used by
`TestAttachmentTypes.test_selection_attachment_parsing` (and quoted in
spec.md §8). -/
def selectionFullRecordExample : WireRecord :=
  [("type", JValue.str "selection"),
   ("filePath", JValue.str "/path/to/file.py"),
   ("displayName", JValue.str "file.py:10-20"),
   ("selection",
     JValue.obj
       [("start", JValue.obj [("line", JValue.num 10), ("character", JValue.num 0)]),
        ("end", JValue.obj [("line", JValue.num 20), ("character", JValue.num 50)])]),
   ("text", JValue.str "selected text content")]

/-- The minimal SELECTION wire record used by
`TestAttachmentTypes.test_selection_attachment_minimal`. -/
def selectionMinimalRecordExample : WireRecord :=
  [("type", JValue.str "selection"),
   ("filePath", JValue.str "/path/to/file.py"),
   ("displayName", JValue.str "file.py")]

/-- The FILE record of `fileRecordExample` with its bindings listed in
the opposite order: the same mapping, a different association list. -/
def fileRecordReorderedExample : WireRecord :=
  [("displayName", JValue.str "file.py"),
   ("path", JValue.str "/path/to/file.py"),
   ("type", JValue.str "file")]

/-- The Attachment that parsing `fileRecordExample` produces. -/
def fileAttachmentExample : Attachment :=
  { type := AttachmentType.FILE,
    path := some "/path/to/file.py", display_name := some "file.py",
    file_path := none, selection := none, text := none }

/-- C1: for every valid FILE or DIRECTORY wire record (a mapping with
`type` "file" or "directory" and string fields `path` and
`displayName`), `Attachment.from_dict` returns an Attachment with the
matching type tag whose `path` and `display_name` equal the record's
`path` and `displayName` unchanged. -/
theorem from_dict_file_directory_roundtrip (r : WireRecord) (ty p d : String)
    (hty : lookupField r "type" = some (JValue.str ty))
    (hfd : ty = "file" ∨ ty = "directory")
    (hp : lookupField r "path" = some (JValue.str p))
    (hd : lookupField r "displayName" = some (JValue.str d)) :
    Attachment.from_dict r =
      Except.ok
        { type := if ty == "file" then AttachmentType.FILE else AttachmentType.DIRECTORY,
          path := some p, display_name := some d,
          file_path := none, selection := none, text := none } := by
  rcases hfd with h | h <;> subst h <;>
    simp [Attachment.from_dict, getStr, hty, hp, hd]

/-- Witness for C1: the FILE record of
`TestAttachmentTypes.test_file_attachment_parsing` parses as the test
asserts. -/
theorem from_dict_file_directory_roundtrip_witness :
    Attachment.from_dict fileRecordExample = Except.ok fileAttachmentExample :=
  from_dict_file_directory_roundtrip fileRecordExample "file" "/path/to/file.py" "file.py"
    rfl (Or.inl rfl) rfl rfl

/-- C2: `Attachment.from_dict` fails, with the single
ValidationError-class malformed-record error kind, exactly when the
record's `type` is not one of "file"/"directory"/"selection" or a
required field of the matched variant is missing; it is a total
function, so the error is returned synchronously to the caller. -/
theorem from_dict_error_iff (r : WireRecord) :
    (∃ m, Attachment.from_dict r = Except.error (SdkError.validationError m)) ↔
      (typeUnrecognized r = true ∨ requiredFieldMissing r = true) := by
  unfold Attachment.from_dict typeUnrecognized requiredFieldMissing
  cases htype : getStr r "type" with
  | none => simp
  | some t =>
    by_cases h1 : (t == "file" || t == "directory") = true
    · simp only [h1, if_true]
      cases hp : getStr r "path" <;> cases hd : getStr r "displayName" <;> simp [h1]
    · by_cases h2 : (t == "selection") = true
      · simp only [h1, h2, if_true, if_false, Bool.false_eq_true]
        cases hfp : getStr r "filePath" <;> cases hd : getStr r "displayName" <;>
          simp [h1, h2]
      · simp [h1, h2]

/-- Witness for C2: a record with the unrecognized type "image" is
rejected with the malformed-record error. -/
theorem from_dict_error_iff_witness :
    ∃ m, Attachment.from_dict [("type", JValue.str "image")] =
      Except.error (SdkError.validationError m) :=
  (from_dict_error_iff [("type", JValue.str "image")]).mpr (Or.inl rfl)

/-- C3: the full SELECTION record of
`TestAttachmentTypes.test_selection_attachment_parsing` parses to a
SELECTION attachment with file_path "/path/to/file.py", display_name
"file.py:10-20", selection range (10,0)-(20,50), and text
"selected text content". -/
theorem from_dict_selection_full :
    Attachment.from_dict selectionFullRecordExample =
      Except.ok
        { type := AttachmentType.SELECTION, path := none,
          display_name := some "file.py:10-20", file_path := some "/path/to/file.py",
          selection := some { start := { line := 10, character := 0 },
                              «end» := { line := 20, character := 50 } },
          text := some "selected text content" } := rfl

/-- C4: every SELECTION record with string `filePath` and `displayName`
that omits both `selection` and `text` parses successfully, with both
optional fields null. -/
theorem from_dict_selection_optional_absent (r : WireRecord) (fp d : String)
    (hty : lookupField r "type" = some (JValue.str "selection"))
    (hfp : lookupField r "filePath" = some (JValue.str fp))
    (hd : lookupField r "displayName" = some (JValue.str d))
    (hsel : lookupField r "selection" = none)
    (htext : lookupField r "text" = none) :
    Attachment.from_dict r =
      Except.ok { type := AttachmentType.SELECTION, path := none, display_name := some d,
                  file_path := some fp, selection := none, text := none } := by
  simp [Attachment.from_dict, getStr, hty, hfp, hd, hsel, htext]

/-- Witness for C4: the minimal SELECTION record of
`TestAttachmentTypes.test_selection_attachment_minimal` parses with
selection and text both null. -/
theorem from_dict_selection_optional_absent_witness :
    Attachment.from_dict selectionMinimalRecordExample =
      Except.ok { type := AttachmentType.SELECTION, path := none,
                  display_name := some "file.py", file_path := some "/path/to/file.py",
                  selection := none, text := none } :=
  from_dict_selection_optional_absent selectionMinimalRecordExample
    "/path/to/file.py" "file.py" rfl rfl rfl rfl rfl

/-- C5: every Attachment produced by a successful parse satisfies the
discriminator invariant: FILE/DIRECTORY attachments carry non-null
`path` and `display_name`; SELECTION attachments carry non-null
`file_path` and `display_name` (their `selection` and `text` remain
free to be null, as the type of `Attachment.from_dict` and the C4
theorem show). -/
theorem from_dict_discriminator_invariant (r : WireRecord) (a : Attachment)
    (h : Attachment.from_dict r = Except.ok a) :
    ((a.type = AttachmentType.FILE ∨ a.type = AttachmentType.DIRECTORY) →
      a.path ≠ none ∧ a.display_name ≠ none) ∧
    (a.type = AttachmentType.SELECTION →
      a.file_path ≠ none ∧ a.display_name ≠ none) := by
  unfold Attachment.from_dict at h
  split at h
  · simp at h
  · split at h
    · split at h
      · injection h with h2
        subst h2
        simp only [ne_eq, Option.some_ne_none, not_false_eq_true, and_self, implies_true,
          true_and]
        split <;> simp
      · simp at h
    · split at h
      · split at h
        · injection h with h2
          subst h2
          simp
        · simp at h
      · simp at h

/-- Witness for C5: the invariant holds of the parsed FILE attachment of
`TestAttachmentTypes.test_file_attachment_parsing`. -/
theorem from_dict_discriminator_invariant_witness :
    ((fileAttachmentExample.type = AttachmentType.FILE ∨
        fileAttachmentExample.type = AttachmentType.DIRECTORY) →
      fileAttachmentExample.path ≠ none ∧ fileAttachmentExample.display_name ≠ none) ∧
    (fileAttachmentExample.type = AttachmentType.SELECTION →
      fileAttachmentExample.file_path ≠ none ∧ fileAttachmentExample.display_name ≠ none) :=
  from_dict_discriminator_invariant fileRecordExample fileAttachmentExample rfl

/-- C6: the three session event-kind constants carry the string values
"session.start", "session.snapshot_rewind" and "session.usage_info". -/
theorem sessionEventType_values :
    SessionEventType.SESSION_START.value = "session.start" ∧
    SessionEventType.SESSION_SNAPSHOT_REWIND.value = "session.snapshot_rewind" ∧
    SessionEventType.SESSION_USAGE_INFO.value = "session.usage_info" :=
  ⟨rfl, rfl, rfl⟩

/-- C7 counterexample: the claim names the exposed parse operation
`Attachment.from`, but the name under which the source test suite
invokes it is "from_dict", not "from". -/
theorem attachmentParseExportName_ne_from : attachmentParseExportName ≠ "from" := by
  decide

/-- C7 (amended): the component exposes its wire-record parse operation
under the attribute name `from_dict` on the `Attachment` class, taking a
record and returning an Attachment. -/
theorem attachmentParseExportName_eq_from_dict :
    attachmentParseExportName = "from_dict" ∧
    Attachment.from_dict fileRecordExample = Except.ok fileAttachmentExample :=
  ⟨rfl, rfl⟩

/-- C8: the parse is deterministic and reads nothing beyond the input
record: its result depends only on the record's key-to-value mapping,
so any two records presenting equal mappings (in particular, any two
runs on equal records) parse to equal results.  Side-effect freedom is
intrinsic: `Attachment.from_dict` is a pure function of the record
alone. -/
theorem from_dict_depends_only_on_record (r1 r2 : WireRecord)
    (h : ∀ k, lookupField r1 k = lookupField r2 k) :
    Attachment.from_dict r1 = Attachment.from_dict r2 := by
  unfold Attachment.from_dict
  simp only [getStr, h]

/-- Witness for C8: the FILE test record and its reordered variant
present the same mapping and parse identically. -/
theorem from_dict_depends_only_on_record_witness :
    Attachment.from_dict fileRecordExample =
      Attachment.from_dict fileRecordReorderedExample :=
  from_dict_depends_only_on_record fileRecordExample fileRecordReorderedExample (by
    intro k
    by_cases h1 : "type" = k
    · subst h1; rfl
    · by_cases h2 : "path" = k
      · subst h2; rfl
      · by_cases h3 : "displayName" = k
        · subst h3; rfl
        · simp [lookupField, fileRecordExample, fileRecordReorderedExample, h1, h2, h3])

/-- C9: in the error-handling example's `main`, `client.stop()` is
awaited on every execution path: whatever the outcomes of the awaited
SDK calls (normal return, or raising any of the caught exception
classes) and whatever the captured response, the trace of `main` always
contains the stop action — indeed it is always the final action,
because the `finally` block runs last on every path. -/
theorem mainTrace_always_stops (run : SdkRun) (resp : Option String) :
    MainAction.stopClient ∈ mainTrace run resp ∧
    (mainTrace run resp).getLast? = some MainAction.stopClient := by
  unfold mainTrace
  constructor
  · simp
  · exact List.getLast?_concat _

/-- C10: the `handle_message` callback assigns `event.data.content` to
the captured `response` variable exactly when the event's type is
"assistant.message", and leaves `response` unchanged for every other
event type. -/
theorem handle_message_assistant_only (e : Event) (r : Option String) :
    (e.type = "assistant.message" → handle_message e r = some e.data.content) ∧
    (e.type ≠ "assistant.message" → handle_message e r = r) := by
  constructor <;> intro h <;> simp [handle_message, h]

/-- Witness for C10: an assistant message overwrites the response; a
tool event leaves a previously captured response in place. -/
theorem handle_message_assistant_only_witness :
    handle_message { type := "assistant.message", data := { content := "hello" } } none =
      some "hello" ∧
    handle_message { type := "tool.execution", data := { content := "x" } } (some "prev") =
      some "prev" :=
  ⟨(handle_message_assistant_only
      { type := "assistant.message", data := { content := "hello" } } none).1 rfl,
   (handle_message_assistant_only
      { type := "tool.execution", data := { content := "x" } } (some "prev")).2 (by decide)⟩
